import Mathlib

/-!
Shallow embedding of the hierarchical multi-agent support system and proofs
about it.  The Python sources embedded here are `validation.py`, `agents.py`,
`orchestrator.py`, `rag_search.py` and `tools.py` of the
`hierarchical_multi_agent_support` package.  Pure functions are translated
into Lean functions over `String`/`List Char`; the external collaborators
(LLM backend, embedding backend, tool transports) appear as explicit oracle
parameters, exceptions raised by them as `Except` values, and Python dicts
with dynamic values as association lists over a small `PyVal` type.
-/

set_option maxHeartbeats 1000000

set_option maxRecDepth 16384

/-- Whitespace characters recognised by Python's `\s` regex class and by
`str.strip`/`str.split` in the ASCII range: space, tab, newline, carriage
return, vertical tab and form feed. -/
def isPySpace (c : Char) : Bool :=
  c = ' ' || c = '\t' || c = '\n' || c = '\r' || c = Char.ofNat 11 || c = Char.ofNat 12

/-- Characters removed by the first pass of `InputValidator._sanitize_input`,
the regex `[\x00-\x08\x0b-\x0c\x0e-\x1f\x7f]` (null bytes and control
characters). -/
def isStrippedControl (c : Char) : Bool :=
  c.toNat ≤ 8 || c.toNat = 11 || c.toNat = 12 ||
    (14 ≤ c.toNat && c.toNat ≤ 31) || c.toNat = 127

/-- Helper for `collapseWS`: the flag records whether the previous character
was part of a whitespace run (whose single replacement space was already
emitted). -/
def collapseWSAux : Bool → List Char → List Char
  | _, [] => []
  | inRun, c :: cs =>
    if isPySpace c then
      if inRun then collapseWSAux true cs else ' ' :: collapseWSAux true cs
    else c :: collapseWSAux false cs

/-- Python `re.sub(r'\s+', ' ', s)`: replace every maximal run of whitespace
characters by a single space. -/
def collapseWS (l : List Char) : List Char := collapseWSAux false l

/-- Python `str.lstrip()` on a character list. -/
def trimLeft (l : List Char) : List Char := l.dropWhile isPySpace

/-- Python `str.strip()` on a character list: drop leading and trailing
whitespace. -/
def pyStrip (l : List Char) : List Char :=
  ((trimLeft l).reverse.dropWhile isPySpace).reverse

/-- Python `str.strip()` on strings. -/
def pyStripStr (s : String) : String := String.mk (pyStrip s.data)

/-- Step 1 of `InputValidator._sanitize_input`: remove null bytes and control
characters. -/
def stripControl (l : List Char) : List Char := l.filter (fun c => !isStrippedControl c)

/-- Step 2 of `InputValidator._sanitize_input`: keep only characters present
in the configured allow-list. -/
def keepAllowed (allowed : List Char) (l : List Char) : List Char :=
  l.filter (fun c => allowed.contains c)

/-- `InputValidator._sanitize_input` on character lists: strip control
characters, keep allow-listed characters, collapse whitespace runs to one
space, and trim. -/
def sanitizeChars (allowed : List Char) (l : List Char) : List Char :=
  pyStrip (collapseWS (keepAllowed allowed (stripControl l)))

/-- `InputValidator._sanitize_input`. -/
def sanitize_input (allowed : List Char) (query : String) : String :=
  String.mk (sanitizeChars allowed query.data)

/-- ASCII lowercasing of one character, as Python `str.lower()` does on the
ASCII range. -/
def lowerAscii (c : Char) : Char :=
  if 'A' ≤ c && c ≤ 'Z' then Char.ofNat (c.toNat + 32) else c

/-- Does `pat` occur as a contiguous substring of the scanned list?  Models
`re.search` of a fully literal pattern. -/
def containsLit (pat : List Char) : List Char → Bool
  | [] => pat.isEmpty
  | c :: cs => pat.isPrefixOf (c :: cs) || containsLit pat cs

/-- Match, at the current position, `lit1` followed by a whitespace run
(`\s+` when `oneOrMore`, else `\s*`) followed by `lit2`.  Every use below has
a `lit2` starting with a non-whitespace character, for which taking the
maximal whitespace run is exactly the set of matches of the Python regex. -/
def matchGapAt (lit1 : List Char) (oneOrMore : Bool) (lit2 : List Char) (l : List Char) : Bool :=
  lit1.isPrefixOf l &&
    ((!oneOrMore || decide (0 < ((l.drop lit1.length).takeWhile isPySpace).length)) &&
      lit2.isPrefixOf ((l.drop lit1.length).drop ((l.drop lit1.length).takeWhile isPySpace).length))

/-- `re.search` of `lit1\s*lit2` (or `lit1\s+lit2`): try `matchGapAt` at every
position. -/
def matchGap (lit1 : List Char) (oneOrMore : Bool) (lit2 : List Char) : List Char → Bool
  | [] => matchGapAt lit1 oneOrMore lit2 []
  | c :: cs => matchGapAt lit1 oneOrMore lit2 (c :: cs) || matchGap lit1 oneOrMore lit2 cs

def openScriptLit : List Char := "<script".data

def closeScriptLit : List Char := "</script>".data

/-- Scan for a `</script>` occurrence with no newline before it (Python `.`
in `.*?</script>` does not match newline). -/
def findCloseScript : List Char → Bool
  | [] => false
  | c :: cs => closeScriptLit.isPrefixOf (c :: cs) || (c ≠ '\n' && findCloseScript cs)

/-- Match `<script[^>]*>.*?</script>` at the current position: the `[^>]*>`
part necessarily consumes up to the first `>` after `<script`. -/
def matchScriptAt (l : List Char) : Bool :=
  openScriptLit.isPrefixOf l &&
    (match (l.drop openScriptLit.length).dropWhile (fun c => c ≠ '>') with
     | [] => false
     | _ :: rest2 => findCloseScript rest2)

/-- `re.search` of the script-tag pattern: try `matchScriptAt` everywhere. -/
def matchScript : List Char → Bool
  | [] => false
  | c :: cs => matchScriptAt (c :: cs) || matchScript cs

def patJavascript : List Char := "javascript:".data

def patDataHtml : List Char := "data:text/html".data

def patVbscript : List Char := "vbscript:".data

def patOnload : List Char := "onload".data

def patOnerror : List Char := "onerror".data

def patOnclick : List Char := "onclick".data

def patEq : List Char := "=".data

def patEval : List Char := "eval".data

def patExec : List Char := "exec".data

def patSystem : List Char := "system".data

def patParen : List Char := "(".data

def patImport : List Char := "import".data

def patOs : List Char := "os".data

def patSubprocess : List Char := "subprocess".data

def patDunderImport : List Char := "__import__".data

def patDotDotSlash : List Char := "../".data

def patDotDotBackslash : List Char := "..\\".data

/-- `InputValidator._contains_suspicious_patterns`: lowercase the query and
search for each regex of the fixed list (script tags, dangerous URI schemes,
inline event handlers, code-execution calls, dangerous imports and path
traversal). -/
def contains_suspicious_patterns (query : String) : Bool :=
  let l := query.data.map lowerAscii
  matchScript l ||
  containsLit patJavascript l ||
  containsLit patDataHtml l ||
  containsLit patVbscript l ||
  matchGap patOnload false patEq l ||
  matchGap patOnerror false patEq l ||
  matchGap patOnclick false patEq l ||
  matchGap patEval false patParen l ||
  matchGap patExec false patParen l ||
  matchGap patSystem false patParen l ||
  matchGap patImport true patOs l ||
  matchGap patImport true patSubprocess l ||
  containsLit patDunderImport l ||
  containsLit patDotDotSlash l ||
  containsLit patDotDotBackslash l

/-- The fields of config.py `ValidationConfig` that `InputValidator` reads. -/
structure ValidationConfig where
  max_query_length : Nat
  min_query_length : Nat
  allowed_characters : List Char

/-- The default values of config.py `ValidationConfig`. -/
def defaultValidationConfig : ValidationConfig where
  max_query_length := 1000
  min_query_length := 5
  allowed_characters :=
    "abcdefghijklmnopqrstuvwxyzABCDEFGHIJKLMNOPQRSTUVWXYZ0123456789 .!?@#$%^&*()_+-=[]\x7b\x7d|;':\",./<>?`~".data

/-- validation.py `ValidationResult`. -/
structure ValidationResult where
  is_valid : Bool
  error_message : Option String := none
  sanitized_input : Option String := none
deriving Repr, DecidableEq

def msgEmpty : String := "Query cannot be empty"

def msgTooShort (minLen : Nat) : String :=
  "Query must be at least " ++ toString minLen ++ " characters long"

def msgTooLong (maxLen : Nat) : String :=
  "Query cannot exceed " ++ toString maxLen ++ " characters"

def msgInvalidChars : String := "Query contains only invalid characters"

def msgHarmful : String := "Query contains potentially harmful content"

/-- `InputValidator.validate_query`: empty check, raw length bounds, then
sanitization, blank check and suspicious-pattern check.  The Python body's
`try` never fires since every step is total. -/
def validate_query (cfg : ValidationConfig) (query : String) : ValidationResult :=
  if query = "" then
    { is_valid := false, error_message := some msgEmpty }
  else if query.length < cfg.min_query_length then
    { is_valid := false, error_message := some (msgTooShort cfg.min_query_length) }
  else if cfg.max_query_length < query.length then
    { is_valid := false, error_message := some (msgTooLong cfg.max_query_length) }
  else
    if pyStripStr (sanitize_input cfg.allowed_characters query) = "" then
      { is_valid := false, error_message := some msgInvalidChars }
    else if contains_suspicious_patterns (sanitize_input cfg.allowed_characters query) then
      { is_valid := false, error_message := some msgHarmful }
    else
      { is_valid := true, sanitized_input := some (sanitize_input cfg.allowed_characters query) }

theorem head?_dropWhile_false (p : Char → Bool) (l : List Char) :
    ∀ x ∈ (l.dropWhile p).head?, p x = false := by
  induction l with
  | nil =>
    intro x hx
    simp at hx
  | cons c cs ih =>
    intro x hx
    rw [List.dropWhile_cons] at hx
    by_cases h : p c = true
    · rw [if_pos h] at hx
      exact ih x hx
    · rw [if_neg h] at hx
      simp at hx
      subst hx
      simpa using h

theorem dropWhile_eq_self_of_head (p : Char → Bool) (l : List Char)
    (h : ∀ x ∈ l.head?, p x = false) : l.dropWhile p = l := by
  cases l with
  | nil => rfl
  | cons c cs =>
    have hc : p c = false := h c (by simp)
    simp [List.dropWhile_cons, hc]

theorem dropWhile_dropWhile_same (p : Char → Bool) (l : List Char) :
    (l.dropWhile p).dropWhile p = l.dropWhile p :=
  dropWhile_eq_self_of_head p _ (head?_dropWhile_false p l)

theorem pyStrip_head (l : List Char) :
    ∀ x ∈ (pyStrip l).head?, isPySpace x = false := by
  intro x hx
  have hs : (trimLeft l).reverse.dropWhile isPySpace <:+ (trimLeft l).reverse :=
    List.dropWhile_suffix _
  have hp : pyStrip l <+: trimLeft l := by
    have h2 := List.reverse_prefix.mpr hs
    rw [List.reverse_reverse] at h2
    exact h2
  rcases hp with ⟨t, ht⟩
  cases hnil : pyStrip l with
  | nil =>
    rw [hnil] at hx
    simp at hx
  | cons d ds =>
    rw [hnil] at hx
    simp at hx
    have hhead : x ∈ (l.dropWhile isPySpace).head? := by
      show x ∈ (trimLeft l).head?
      rw [← ht, hnil, hx]
      rfl
    exact head?_dropWhile_false isPySpace l x hhead

theorem pyStrip_pyStrip (l : List Char) : pyStrip (pyStrip l) = pyStrip l := by
  have h1 : trimLeft (pyStrip l) = pyStrip l :=
    dropWhile_eq_self_of_head _ _ (pyStrip_head l)
  show ((trimLeft (pyStrip l)).reverse.dropWhile isPySpace).reverse = pyStrip l
  rw [h1]
  show ((((trimLeft l).reverse.dropWhile isPySpace).reverse).reverse.dropWhile isPySpace).reverse
      = pyStrip l
  rw [List.reverse_reverse, dropWhile_dropWhile_same]
  rfl

theorem mem_pyStrip {x : Char} {l : List Char} (h : x ∈ pyStrip l) : x ∈ l := by
  unfold pyStrip trimLeft at h
  rw [List.mem_reverse] at h
  have h2 := (List.dropWhile_suffix isPySpace).sublist.subset h
  rw [List.mem_reverse] at h2
  exact (List.dropWhile_suffix isPySpace).sublist.subset h2

theorem mem_collapseWSAux {x : Char} (l : List Char) :
    ∀ b, x ∈ collapseWSAux b l → x ∈ l ∨ x = ' ' := by
  induction l with
  | nil =>
    intro b h
    simp [collapseWSAux] at h
  | cons c cs ih =>
    intro b h
    by_cases hc : isPySpace c = true
    · cases b with
      | true =>
        rw [collapseWSAux, if_pos hc, if_pos rfl] at h
        rcases ih true h with h1 | h1
        · exact Or.inl (List.mem_cons_of_mem _ h1)
        · exact Or.inr h1
      | false =>
        rw [collapseWSAux, if_pos hc, if_neg (by simp)] at h
        rcases List.mem_cons.mp h with h1 | h1
        · exact Or.inr h1
        · rcases ih true h1 with h2 | h2
          · exact Or.inl (List.mem_cons_of_mem _ h2)
          · exact Or.inr h2
    · rw [collapseWSAux, if_neg hc] at h
      rcases List.mem_cons.mp h with h1 | h1
      · exact Or.inl (h1 ▸ List.mem_cons_self _ _)
      · rcases ih false h1 with h2 | h2
        · exact Or.inl (List.mem_cons_of_mem _ h2)
        · exact Or.inr h2

theorem space_eq_of_mem_collapseWSAux {x : Char} (l : List Char) :
    ∀ b, x ∈ collapseWSAux b l → isPySpace x = true → x = ' ' := by
  induction l with
  | nil =>
    intro b h
    simp [collapseWSAux] at h
  | cons c cs ih =>
    intro b h hx
    by_cases hc : isPySpace c = true
    · cases b with
      | true =>
        rw [collapseWSAux, if_pos hc, if_pos rfl] at h
        exact ih true h hx
      | false =>
        rw [collapseWSAux, if_pos hc, if_neg (by simp)] at h
        rcases List.mem_cons.mp h with h1 | h1
        · exact h1
        · exact ih true h1 hx
    · rw [collapseWSAux, if_neg hc] at h
      rcases List.mem_cons.mp h with h1 | h1
      · exact absurd (h1 ▸ hx) hc
      · exact ih false h1 hx

theorem exists_space_of_mem_collapseWSAux (l : List Char) :
    ∀ b, ' ' ∈ collapseWSAux b l → ∃ w ∈ l, isPySpace w = true := by
  induction l with
  | nil =>
    intro b h
    simp [collapseWSAux] at h
  | cons c cs ih =>
    intro b h
    by_cases hc : isPySpace c = true
    · exact ⟨c, List.mem_cons_self _ _, hc⟩
    · rw [collapseWSAux, if_neg hc] at h
      rcases List.mem_cons.mp h with h1 | h1
      · have hsp : isPySpace c = true := by
          rw [← h1]
          decide
        exact absurd hsp hc
      · rcases ih false h1 with ⟨w, hw1, hw2⟩
        exact ⟨w, List.mem_cons_of_mem _ hw1, hw2⟩

/-- No two adjacent characters are both whitespace. -/
def noTwoSpaces (a b : Char) : Prop := ¬(isPySpace a = true ∧ isPySpace b = true)

theorem head?_collapseWSAux_true (l : List Char) :
    ∀ x ∈ (collapseWSAux true l).head?, isPySpace x = false := by
  induction l with
  | nil =>
    intro x hx
    simp [collapseWSAux] at hx
  | cons c cs ih =>
    intro x hx
    by_cases hc : isPySpace c = true
    · rw [collapseWSAux, if_pos hc, if_pos rfl] at hx
      exact ih x hx
    · rw [collapseWSAux, if_neg hc] at hx
      simp at hx
      subst hx
      simpa using hc

theorem chain'_collapseWSAux (l : List Char) :
    ∀ b, List.Chain' noTwoSpaces (collapseWSAux b l) := by
  induction l with
  | nil =>
    intro b
    simp [collapseWSAux]
  | cons c cs ih =>
    intro b
    by_cases hc : isPySpace c = true
    · cases b with
      | true =>
        rw [collapseWSAux, if_pos hc, if_pos rfl]
        exact ih true
      | false =>
        rw [collapseWSAux, if_pos hc, if_neg (by simp)]
        rw [List.chain'_cons']
        refine ⟨fun y hy => ?_, ih true⟩
        intro hcon
        rw [head?_collapseWSAux_true cs y hy] at hcon
        exact Bool.false_ne_true hcon.2
    · rw [collapseWSAux, if_neg hc]
      rw [List.chain'_cons']
      exact ⟨fun y _ => fun hcon => hc hcon.1, ih false⟩

theorem collapseWSAux_true_eq_false_of_head (l : List Char)
    (h : ∀ x ∈ l.head?, isPySpace x = false) :
    collapseWSAux true l = collapseWSAux false l := by
  cases l with
  | nil => rfl
  | cons c cs =>
    have hc : isPySpace c = false := h c (by simp)
    simp [collapseWSAux, hc]

theorem collapseWS_eq_self (l : List Char) :
    (∀ x ∈ l, isPySpace x = true → x = ' ') → List.Chain' noTwoSpaces l →
    collapseWS l = l := by
  unfold collapseWS
  induction l with
  | nil =>
    intro _ _
    rfl
  | cons c cs ih =>
    intro h1 h2
    rw [List.chain'_cons'] at h2
    by_cases hc : isPySpace c = true
    · have hcsp : c = ' ' := h1 c (List.mem_cons_self _ _) hc
      have hhead : ∀ x ∈ cs.head?, isPySpace x = false := by
        intro y hy
        cases hys : isPySpace y with
        | false => rfl
        | true => exact absurd ⟨hc, hys⟩ (h2.1 y hy)
      rw [collapseWSAux, if_pos hc, if_neg (by simp)]
      rw [collapseWSAux_true_eq_false_of_head cs hhead]
      rw [ih (fun x hx => h1 x (List.mem_cons_of_mem _ hx)) h2.2]
      rw [hcsp]
    · rw [collapseWSAux, if_neg hc]
      rw [ih (fun x hx => h1 x (List.mem_cons_of_mem _ hx)) h2.2]

theorem chain'_pyStrip {R : Char → Char → Prop} (hsymm : ∀ a b, R a b → R b a)
    (l : List Char) (h : List.Chain' R l) : List.Chain' R (pyStrip l) := by
  unfold pyStrip trimLeft
  have h1 : List.Chain' R (l.dropWhile isPySpace) :=
    List.Chain'.suffix h (List.dropWhile_suffix _)
  have h2 : List.Chain' R (l.dropWhile isPySpace).reverse := by
    rw [List.chain'_reverse]
    exact List.Chain'.imp (fun a b hab => hsymm a b hab) h1
  have h3 : List.Chain' R ((l.dropWhile isPySpace).reverse.dropWhile isPySpace) :=
    List.Chain'.suffix h2 (List.dropWhile_suffix _)
  rw [List.chain'_reverse]
  exact List.Chain'.imp (fun a b hab => hsymm a b hab) h3

theorem sanitizeChars_idempotent (allowed : List Char)
    (hA : ∀ c ∈ allowed, isPySpace c = true → c = ' ') (l : List Char) :
    sanitizeChars allowed (sanitizeChars allowed l) = sanitizeChars allowed l := by
  have key : ∀ u : List Char,
      (∀ c ∈ u, allowed.contains c = true) →
      (∀ c ∈ u, isStrippedControl c = false) →
      sanitizeChars allowed (pyStrip (collapseWS u)) = pyStrip (collapseWS u) := by
    intro u hcont hctrl
    have hmemU : ∀ x ∈ pyStrip (collapseWS u), x ∈ u ∨ x = ' ' := by
      intro x hx
      exact mem_collapseWSAux u false (mem_pyStrip hx)
    have hsc : stripControl (pyStrip (collapseWS u)) = pyStrip (collapseWS u) := by
      rw [stripControl, List.filter_eq_self]
      intro a ha
      rcases hmemU a ha with h1 | h1
      · simp [hctrl a h1]
      · subst h1
        decide
    have hka : keepAllowed allowed (pyStrip (collapseWS u)) = pyStrip (collapseWS u) := by
      rw [keepAllowed, List.filter_eq_self]
      intro a ha
      rcases hmemU a ha with h1 | h1
      · exact hcont a h1
      · subst h1
        rcases exists_space_of_mem_collapseWSAux u false (mem_pyStrip ha) with ⟨w, hw1, hw2⟩
        have hwa : w ∈ allowed := List.elem_iff.mp (hcont w hw1)
        have hws : w = ' ' := hA w hwa hw2
        exact List.elem_iff.mpr (hws ▸ hwa)
    have hcol : collapseWS (pyStrip (collapseWS u)) = pyStrip (collapseWS u) := by
      apply collapseWS_eq_self
      · intro x hx hxs
        exact space_eq_of_mem_collapseWSAux u false (mem_pyStrip hx) hxs
      · exact chain'_pyStrip (fun a b hab => fun hcon => hab ⟨hcon.2, hcon.1⟩) _
          (chain'_collapseWSAux u false)
    show pyStrip (collapseWS (keepAllowed allowed (stripControl (pyStrip (collapseWS u)))))
        = pyStrip (collapseWS u)
    rw [hsc, hka, hcol, pyStrip_pyStrip]
  apply key
  · intro c hc
    exact (List.mem_filter.mp hc).2
  · intro c hc
    have h2 := (List.mem_filter.mp (List.mem_filter.mp hc).1).2
    simpa using h2

theorem sanitize_input_empty (allowed : List Char) : sanitize_input allowed ("") = "" := rfl

theorem contains_suspicious_patterns_empty : contains_suspicious_patterns ("") = false := by
  decide

theorem pyStripStr_sanitize_input (allowed : List Char) (q : String) :
    pyStripStr (sanitize_input allowed q) = sanitize_input allowed q := by
  unfold pyStripStr sanitize_input sanitizeChars
  exact congrArg String.mk (pyStrip_pyStrip _)

/-- C9: sanitization is idempotent — applying `_sanitize_input` to its own
output returns that output unchanged.  The hypothesis states that the only
whitespace character in the allow-list is the plain space, which holds for
the configured (default) allow-list; without it a collapsed whitespace run
could turn into a space that the second pass would then filter out. -/
theorem sanitize_input_idempotent (allowed : List Char)
    (hA : ∀ c ∈ allowed, isPySpace c = true → c = ' ') (s : String) :
    sanitize_input allowed (sanitize_input allowed s) = sanitize_input allowed s := by
  unfold sanitize_input
  exact congrArg String.mk (sanitizeChars_idempotent allowed hA s.data)

/-- Witness for C9 at the default allow-list and a concrete raw query. -/
theorem sanitize_input_idempotent_witness :
    sanitize_input defaultValidationConfig.allowed_characters
        (sanitize_input defaultValidationConfig.allowed_characters
          ("  Hello,\tworld!  How  are\u000byou?  ")) =
      sanitize_input defaultValidationConfig.allowed_characters
        ("  Hello,\tworld!  How  are\u000byou?  ") :=
  sanitize_input_idempotent defaultValidationConfig.allowed_characters (by decide) _

/-- C8: raw-length bounds checking of `validate_query`.  The empty query gets
its own failure message; any other query shorter than the configured minimum
fails with the minimum-length message; a query longer than the configured
maximum fails with the maximum-length message.  All three checks read the raw
query before sanitization (the conclusions depend only on the raw length and
not on the allow-list). -/
theorem validate_query_length_bounds (cfg : ValidationConfig) (q : String) :
    (q = "" → validate_query cfg q =
      { is_valid := false, error_message := some msgEmpty }) ∧
    (q ≠ "" → q.length < cfg.min_query_length →
      validate_query cfg q =
        { is_valid := false, error_message := some (msgTooShort cfg.min_query_length) }) ∧
    (cfg.min_query_length ≤ q.length → cfg.max_query_length < q.length →
      validate_query cfg q =
        { is_valid := false, error_message := some (msgTooLong cfg.max_query_length) }) := by
  refine ⟨fun h => by simp [validate_query, h], fun hne hlt => by simp [validate_query, hne, hlt],
    fun hge hgt => ?_⟩
  have hne : q ≠ "" := by
    intro h
    subst h
    have h0 : ("" : String).length = 0 := rfl
    omega
  simp [validate_query, hne, Nat.not_lt.mpr hge, hgt]

def longQuery : String := String.mk (List.replicate 1001 'a')

/-- Witness for C8 at the default configuration: empty input, a 3-character
input and a 1001-character input. -/
theorem validate_query_length_bounds_witness :
    validate_query defaultValidationConfig ("") =
      { is_valid := false, error_message := some msgEmpty } ∧
    validate_query defaultValidationConfig ("hi!") =
      { is_valid := false, error_message := some (msgTooShort 5) } ∧
    validate_query defaultValidationConfig longQuery =
      { is_valid := false, error_message := some (msgTooLong 1000) } :=
  ⟨(validate_query_length_bounds defaultValidationConfig ("")).1 rfl,
   (validate_query_length_bounds defaultValidationConfig ("hi!")).2.1 (by decide) (by decide),
   (validate_query_length_bounds defaultValidationConfig longQuery).2.2 (by decide) (by decide)⟩

/-- C6 (amended): a query whose sanitized form matches one of the suspicious
patterns is never marked valid; and whenever such a query additionally
respects the raw length bounds, `validate_query` fails with exactly the
potentially-harmful-content message. -/
theorem validate_query_suspicious_never_valid (cfg : ValidationConfig) (q : String) :
    (contains_suspicious_patterns (sanitize_input cfg.allowed_characters q) = true →
      (validate_query cfg q).is_valid = false) ∧
    (cfg.min_query_length ≤ q.length → q.length ≤ cfg.max_query_length →
      contains_suspicious_patterns (sanitize_input cfg.allowed_characters q) = true →
      validate_query cfg q =
        { is_valid := false, error_message := some msgHarmful, sanitized_input := none }) := by
  have hblank : contains_suspicious_patterns (sanitize_input cfg.allowed_characters q) = true →
      ¬(pyStripStr (sanitize_input cfg.allowed_characters q) = "") := by
    intro h hcon
    rw [pyStripStr_sanitize_input] at hcon
    rw [hcon] at h
    exact absurd h (by decide)
  constructor
  · intro hsus
    have hb := hblank hsus
    simp only [validate_query]
    split_ifs with h1 h2 h3
    · rfl
    · rfl
    · rfl
    · rfl
  · intro hmin hmax hsus
    have hb := hblank hsus
    have hne : q ≠ "" := by
      intro hq
      subst hq
      rw [sanitize_input_empty] at hsus
      exact absurd hsus (by decide)
    simp only [validate_query]
    rw [if_neg hne, if_neg (by omega : ¬(q.length < cfg.min_query_length)),
      if_neg (by omega : ¬(cfg.max_query_length < q.length)), if_neg hb, if_pos hsus]

/-- Witness for C6 (amended) at the default configuration and a concrete
malicious in-bounds query. -/
theorem validate_query_suspicious_witness :
    validate_query defaultValidationConfig ("eval(x)") =
      { is_valid := false, error_message := some msgHarmful, sanitized_input := none } :=
  (validate_query_suspicious_never_valid defaultValidationConfig ("eval(x)")).2
    (by decide) (by decide) (by decide)

/-- Counterexample to C6 as stated: the query is 4 characters long and its
sanitized form contains the path-traversal pattern, yet `validate_query`
reports the minimum-length message, not the harmful-content message, because
the raw length bounds are checked first. -/
theorem validate_query_suspicious_cex :
    contains_suspicious_patterns
        (sanitize_input defaultValidationConfig.allowed_characters ("../a")) = true ∧
    validate_query defaultValidationConfig ("../a") =
      { is_valid := false, error_message := some (msgTooShort 5), sanitized_input := none } := by
  exact ⟨by decide, by decide⟩

def isAsciiAlpha (c : Char) : Bool := ('a' ≤ c && c ≤ 'z') || ('A' ≤ c && c ≤ 'Z')

/-- ASCII uppercasing of one character. -/
def upperAscii (c : Char) : Char :=
  if 'a' ≤ c && c ≤ 'z' then Char.ofNat (c.toNat - 32) else c

/-- Python `str.title()` on the ASCII range: a letter is uppercased when the
previous character is not a letter, lowercased otherwise. -/
def pyTitleAux : Bool → List Char → List Char
  | _, [] => []
  | prevAlpha, c :: cs =>
    (if isAsciiAlpha c then (if prevAlpha then lowerAscii c else upperAscii c) else c) ::
      pyTitleAux (isAsciiAlpha c) cs

def pyTitle (l : List Char) : List Char := pyTitleAux false l

/-- Python `str.split()` with no separator: split on whitespace runs and drop
empty tokens.  The accumulator holds the current token reversed. -/
def pySplitAux : List Char → List Char → List (List Char)
  | [], acc => if acc.isEmpty then [] else [acc.reverse]
  | c :: cs, acc =>
    if isPySpace c then
      (if acc.isEmpty then pySplitAux cs [] else acc.reverse :: pySplitAux cs [])
    else pySplitAux cs (c :: acc)

def pySplit (l : List Char) : List (List Char) := pySplitAux l []

/-- Python `\w` in the ASCII range: letters, digits and the underscore. -/
def isWordChar (c : Char) : Bool := isAsciiAlpha c || ('0' ≤ c && c ≤ '9') || c = '_'

/-- Does `w` (a non-empty all-word-character literal) occur at the head of
`l` with word boundaries on both sides?  `prev` is the character immediately
before this position, if any. -/
def wordAtBoundary (w : List Char) (prev : Option Char) (l : List Char) : Bool :=
  (match prev with
   | none => true
   | some p => !isWordChar p) &&
  (w.isPrefixOf l &&
    (match l.drop w.length with
     | [] => true
     | d :: _ => !isWordChar d))

/-- `re.search` of `\b`-delimited literal `w`: try every position. -/
def containsWordFrom (w : List Char) : Option Char → List Char → Bool
  | prev, [] => wordAtBoundary w prev []
  | prev, c :: cs => wordAtBoundary w prev (c :: cs) || containsWordFrom w (some c) cs

def containsWord (w : List Char) (l : List Char) : Bool := containsWordFrom w none l

def labelFinanceLower : List Char := "finance".data

def labelItLower : List Char := "it".data

def labelBothLower : List Char := "both".data

def labelUnclearLower : List Char := "unclear".data

def routingLabelsLower : List (List Char) :=
  [labelFinanceLower, labelItLower, labelBothLower, labelUnclearLower]

/-- The word-boundary regex fallback of `_parse_routing_decision`: search the
lowercased response for the standalone words finance, it, both, unclear, in
that priority order, defaulting to Unclear. -/
def routing_regex_fallback (response : String) : String :=
  let response_lower := response.data.map lowerAscii
  if containsWord labelFinanceLower response_lower then "Finance"
  else if containsWord labelItLower response_lower then "IT"
  else if containsWord labelBothLower response_lower then "Both"
  else if containsWord labelUnclearLower response_lower then "Unclear"
  else "Unclear"

/-- `SupervisorAgent._parse_routing_decision`: take the first whitespace
token of `response.strip().split()`; if its lowercase form is one of the
four labels, return `"IT"` for it and `first_word.title()` otherwise;
else fall back to the word-boundary regex search. -/
def parse_routing_decision (response : String) : String :=
  match pySplit (pyStrip response.data) with
  | first_word0 :: _ =>
    if routingLabelsLower.contains (first_word0.map lowerAscii) then
      (if first_word0.map lowerAscii = labelItLower then "IT"
       else String.mk (pyTitle (first_word0.map lowerAscii)))
    else routing_regex_fallback response
  | [] => routing_regex_fallback response

/-- The routing parse exactly as the claim words it: if the first
whitespace-delimited token of the response is (case-insensitively) one of
IT, Finance, Both, Unclear, return that label, else return the first label
whose word-boundary regex matches, checked Finance, IT, Both, Unclear, else
Unclear. -/
def claim_routing_parse (response : String) : String :=
  match pySplit response.data with
  | first_word0 :: _ =>
    if first_word0.map lowerAscii = labelItLower then "IT"
    else if first_word0.map lowerAscii = labelFinanceLower then "Finance"
    else if first_word0.map lowerAscii = labelBothLower then "Both"
    else if first_word0.map lowerAscii = labelUnclearLower then "Unclear"
    else routing_regex_fallback response
  | [] => routing_regex_fallback response

theorem pySplitAux_head_of_ne_nil (cs : List Char) :
    ∀ acc : List Char, acc ≠ [] →
      (pySplitAux cs acc).head? =
        some (acc.reverse ++ cs.takeWhile (fun c => !isPySpace c)) := by
  induction cs with
  | nil =>
    intro acc hacc
    rw [pySplitAux, if_neg (by simpa using hacc)]
    simp
  | cons c cs ih =>
    intro acc hacc
    by_cases hc : isPySpace c = true
    · rw [pySplitAux, if_pos hc, if_neg (by simpa using hacc)]
      simp [List.takeWhile_cons, hc]
    · rw [pySplitAux, if_neg hc]
      rw [ih (c :: acc) (by simp)]
      simp [List.takeWhile_cons, hc]

/-- The first whitespace-delimited token of a character list. -/
def firstToken (l : List Char) : List Char :=
  (trimLeft l).takeWhile (fun c => !isPySpace c)

theorem pySplit_head (l : List Char) :
    (pySplit l).head? = if trimLeft l = [] then none else some (firstToken l) := by
  unfold pySplit
  induction l with
  | nil => rfl
  | cons c cs ih =>
    by_cases hc : isPySpace c = true
    · rw [pySplitAux, if_pos hc, if_pos (by simp)]
      rw [ih]
      simp [trimLeft, firstToken, List.dropWhile_cons, hc]
  -- non-space head: the split begins a token
    · rw [pySplitAux, if_neg hc]
      rw [pySplitAux_head_of_ne_nil cs [c] (by simp)]
      have ht : trimLeft (c :: cs) = c :: cs := by
        simp [trimLeft, List.dropWhile_cons, hc]
      rw [if_neg (by simp [ht])]
      simp [firstToken, ht, List.takeWhile_cons, hc]

theorem takeWhile_append_of_false (p : Char → Bool) (w : List Char)
    (hw : ∀ x ∈ w, p x = false) (xs : List Char) :
    (xs ++ w).takeWhile p = xs.takeWhile p := by
  induction xs with
  | nil =>
    cases w with
    | nil => rfl
    | cons d ds => simp [List.takeWhile_cons, hw d (by simp)]
  | cons x xs ih =>
    by_cases hx : p x = true
    · simp [List.takeWhile_cons, hx, ih]
    · simp [List.takeWhile_cons, hx]

theorem trimLeft_pyStrip (l : List Char) : trimLeft (pyStrip l) = pyStrip l :=
  dropWhile_eq_self_of_head _ _ (pyStrip_head l)

/-- The left-trimmed list decomposes as its fully stripped form followed by a
whitespace tail. -/
theorem trimLeft_eq_pyStrip_append (l : List Char) :
    trimLeft l = pyStrip l ++ ((trimLeft l).reverse.takeWhile isPySpace).reverse ∧
    (∀ x ∈ ((trimLeft l).reverse.takeWhile isPySpace).reverse, isPySpace x = true) := by
  constructor
  · have h := List.takeWhile_append_dropWhile (p := isPySpace) (l := (trimLeft l).reverse)
    have h2 := congrArg List.reverse h
    rw [List.reverse_append, List.reverse_reverse] at h2
    exact h2.symm
  · intro x hx
    rw [List.mem_reverse] at hx
    exact List.mem_takeWhile_imp hx

theorem pySplit_head_pyStrip (l : List Char) :
    (pySplit (pyStrip l)).head? = (pySplit l).head? := by
  rcases trimLeft_eq_pyStrip_append l with ⟨hdec, hws⟩
  rw [pySplit_head, pySplit_head, trimLeft_pyStrip]
  by_cases hnil : trimLeft l = []
  · have hs : pyStrip l = [] := by
      unfold pyStrip
      rw [hnil]
      rfl
    rw [if_pos hs, if_pos hnil]
  · have hs : pyStrip l ≠ [] := by
      intro hcon
      rw [hcon, List.nil_append] at hdec
      rcases List.exists_cons_of_ne_nil hnil with ⟨d, ds, hd⟩
      have hd1 : isPySpace d = false := by
        apply head?_dropWhile_false isPySpace l
        show d ∈ (trimLeft l).head?
        rw [hd]
        rfl
      have hd2 : isPySpace d = true := by
        apply hws
        rw [← hdec, hd]
        exact List.mem_cons_self _ _
      rw [hd1] at hd2
      exact Bool.false_ne_true hd2
    rw [if_neg hs, if_neg hnil]
    have htok : firstToken l = firstToken (pyStrip l) := by
      unfold firstToken
      rw [trimLeft_pyStrip, hdec]
      exact takeWhile_append_of_false _ _ (fun x hx => by simp [hws x hx]) _
    rw [htok]

theorem routingLabels_contains_false (fw : List Char)
    (h1 : fw ≠ labelFinanceLower) (h2 : fw ≠ labelItLower)
    (h3 : fw ≠ labelBothLower) (h4 : fw ≠ labelUnclearLower) :
    routingLabelsLower.contains fw = false := by
  rw [← Bool.not_eq_true]
  intro hcon
  have hmem := List.elem_iff.mp hcon
  simp [routingLabelsLower] at hmem
  rcases hmem with h | h | h | h
  · exact h1 h
  · exact h2 h
  · exact h3 h
  · exact h4 h

/-- C2: the routing parser agrees with the claim's description on every LLM
response string, and the claim's concrete examples parse as stated. -/
theorem parse_routing_decision_spec :
    (∀ r : String, parse_routing_decision r = claim_routing_parse r) ∧
    parse_routing_decision ("Finance - explanation") = "Finance" ∧
    parse_routing_decision ("IT - explanation") = "IT" ∧
    parse_routing_decision ("Both - explanation") = "Both" ∧
    parse_routing_decision ("Unclear - explanation") = "Unclear" ∧
    parse_routing_decision ("What a lovely day for a walk outside.") = "Unclear" := by
  refine ⟨fun r => ?_, by decide, by decide, by decide, by decide, by decide⟩
  unfold parse_routing_decision claim_routing_parse
  have hh := pySplit_head_pyStrip r.data
  cases h1 : pySplit (pyStrip r.data) with
  | nil =>
    cases h2 : pySplit r.data with
    | nil => rfl
    | cons y ys =>
      rw [h1, h2] at hh
      simp at hh
  | cons x xs =>
    cases h2 : pySplit r.data with
    | nil =>
      rw [h1, h2] at hh
      simp at hh
    | cons y ys =>
      rw [h1, h2] at hh
      simp at hh
      subst hh
      dsimp only
      by_cases hit : x.map lowerAscii = labelItLower
      · rw [if_pos (by rw [hit]; decide), if_pos hit, if_pos hit]
      · by_cases hfin : x.map lowerAscii = labelFinanceLower
        · rw [if_pos (by rw [hfin]; decide), if_neg hit, if_neg hit, if_pos hfin, hfin]
          decide
        · by_cases hboth : x.map lowerAscii = labelBothLower
          · rw [if_pos (by rw [hboth]; decide), if_neg hit, if_neg hit, if_neg hfin,
              if_pos hboth, hboth]
            decide
          · by_cases huncl : x.map lowerAscii = labelUnclearLower
            · rw [if_pos (by rw [huncl]; decide), if_neg hit, if_neg hit, if_neg hfin,
                if_neg hboth, if_pos huncl, huncl]
              decide
            · rw [if_neg (by
                  rw [routingLabels_contains_false _ hfin hit hboth huncl]
                  exact Bool.false_ne_true),
                if_neg hit, if_neg hfin, if_neg hboth, if_neg huncl]

/-- A small model of Python's dynamic values as they appear in the repo's
`metadata` dictionaries and tool-call records. -/
inductive PyVal where
  | none : PyVal
  | bool : Bool → PyVal
  | str : String → PyVal
  | int : Int → PyVal
  | vlist : List PyVal → PyVal
  | dict : List (String × PyVal) → PyVal
deriving Repr

/-- An insertion-ordered Python dict with string keys. -/
abbrev PyDict := List (String × PyVal)

/-- Python `d[k] = v`: overwrite in place when the key exists, else append. -/
def pyDictSet (d : PyDict) (k : String) (v : PyVal) : PyDict :=
  if d.any (fun kv => kv.1 == k) then
    d.map (fun kv => if kv.1 == k then (k, v) else kv)
  else d ++ [(k, v)]

/-- Python `d.get(k, default)`. -/
def pyDictGet (d : PyDict) (k : String) (default : PyVal) : PyVal :=
  match d.find? (fun kv => kv.1 == k) with
  | some kv => kv.2
  | Option.none => default

/-- Coerce an optional Python string (possibly `None`) into a `PyVal`. -/
def optStrVal : Option String → PyVal
  | some s => PyVal.str s
  | Option.none => PyVal.none

/-- models.py `ToolResult`. -/
structure ToolResult where
  success : Bool
  data : PyVal := PyVal.none
  error : Option String := none
  metadata : PyDict := []
deriving Repr

/-- agents.py `AgentResponse`.  `tool_calls` entries are the dict records the
agents append. -/
structure AgentResponse where
  success : Bool
  message : String
  agent_name : String
  routing_decision : Option String := none
  tool_calls : List PyDict := []
  metadata : PyDict := []
deriving Repr

/-- The keys of the dict built by `ToolRegistry._register_tools`. -/
def registered_tool_names : List String := ["web_search", "read_file", "rag_search"]

/-- `ToolRegistry.execute_tool`: look the name up in the registry dict
(`get_tool`), return the `Tool not found` failure when absent, delegate to
the tool implementation (an oracle here) when present.  The function is
total — an unknown name produces a failure value, never an exception. -/
def execute_tool (tool_impls : String → ToolResult) (tool_name : String) : ToolResult :=
  if registered_tool_names.contains tool_name then tool_impls tool_name
  else { success := false, error := some ("Tool not found: " ++ tool_name) }

/-- C10: for every tool name outside the registry, `execute_tool` returns a
failure `ToolResult` naming the missing tool (success false, no data, empty
metadata), for any behaviour of the registered tools; the dispatch itself is
a total function, so it never raises. -/
theorem execute_tool_unknown (tool_impls : String → ToolResult) (tool_name : String)
    (h : ¬ tool_name ∈ registered_tool_names) :
    execute_tool tool_impls tool_name =
      { success := false, data := PyVal.none,
        error := some ("Tool not found: " ++ tool_name), metadata := [] } := by
  unfold execute_tool
  rw [if_neg (fun hc => h (List.elem_iff.mp hc))]

/-- Witness for C10 at a concrete unregistered name. -/
theorem execute_tool_unknown_witness :
    execute_tool (fun _ => { success := true }) ("database_query") =
      { success := false, data := PyVal.none,
        error := some ("Tool not found: " ++ "database_query"), metadata := [] } :=
  execute_tool_unknown (fun _ => { success := true }) ("database_query") (by decide)

/-- Python string join: `sep` between the elements of `xs`. -/
def pyJoin (sep : String) : List String → String
  | [] => ""
  | [s] => s
  | s :: rest => s ++ sep ++ pyJoin sep rest

/-- `SupervisorAgent._fallback_to_original`: when evaluation fails with
exception text `error`, a single specialist response is returned with
`evaluation_failed` and `evaluation_error` stamped into its metadata;
otherwise the responses are joined as `**AgentName:** message` sections
separated by blank lines, with all tool calls concatenated and fresh
metadata.  `agent_name` is the calling agent's own name (`"Supervisor"`). -/
def fallback_to_original (agent_name : String) (specialist_responses : List AgentResponse)
    (routing_decision : Option String) (error : String) : AgentResponse :=
  match specialist_responses with
  | [response] =>
    { response with
      metadata := pyDictSet (pyDictSet response.metadata ("evaluation_failed") (PyVal.bool true))
        ("evaluation_error") (PyVal.str error) }
  | rs =>
    { success := true
      message := pyJoin ("\n\n") (rs.map (fun r => "**" ++ r.agent_name ++ ":** " ++ r.message))
      agent_name := agent_name
      routing_decision := none
      tool_calls := (rs.map (fun r => r.tool_calls)).flatten
      metadata := [("evaluated", PyVal.bool false), ("evaluation_failed", PyVal.bool true),
        ("evaluation_error", PyVal.str error), ("routing_decision", optStrVal routing_decision)] }

/-- `SupervisorAgent.evaluate_response`: ask the evaluation LLM (an `Except`
oracle standing for `_call_llm`) for a refined answer; on success wrap it
with the union of the specialists' tool calls and evaluation metadata; on
failure (`LLMError` or any other exception, whose `str` is the oracle's
error string) fall back to `_fallback_to_original`. -/
def supervisor_evaluate_response (evalLLM : Except String String)
    (specialist_responses : List AgentResponse) (routing_decision : Option String) :
    AgentResponse :=
  match evalLLM with
  | Except.ok refined_response =>
    { success := true
      message := refined_response
      agent_name := "Supervisor"
      routing_decision := none
      tool_calls := (specialist_responses.map (fun r => r.tool_calls)).flatten
      metadata := [("evaluated", PyVal.bool true),
        ("original_specialists", PyVal.vlist (specialist_responses.map (fun r => PyVal.str r.agent_name))),
        ("routing_decision", optStrVal routing_decision),
        ("total_tools_used", PyVal.int ((specialist_responses.map (fun r => r.tool_calls)).flatten.length : Int)),
        ("evaluation_success", PyVal.bool true)] }
  | Except.error e => fallback_to_original ("Supervisor") specialist_responses routing_decision e



/-- C3: the evaluation-failure fallback preserves specialist content.  A
failing evaluation LLM call routes to `_fallback_to_original`; with one
specialist response the response is returned unchanged except that its
metadata gains `evaluation_failed = true` and the error string; with two,
the message is the labeled sections `**AgentName:** message` joined by a
blank line, the tool calls are concatenated, the metadata is exactly
`evaluated/evaluation_failed/evaluation_error/routing_decision`, and both
specialist messages occur verbatim (as contiguous substrings) inside the
combined message. -/
theorem fallback_to_original_preserves (e : String) (rd : Option String)
    (r1 r2 : AgentResponse) :
    supervisor_evaluate_response (Except.error e) [r1] rd =
      { r1 with
        metadata := pyDictSet (pyDictSet r1.metadata ("evaluation_failed") (PyVal.bool true))
          ("evaluation_error") (PyVal.str e) } ∧
    (supervisor_evaluate_response (Except.error e) [r1, r2] rd).message =
      "**" ++ r1.agent_name ++ ":** " ++ r1.message ++ "\n\n" ++
        ("**" ++ r2.agent_name ++ ":** " ++ r2.message) ∧
    (supervisor_evaluate_response (Except.error e) [r1, r2] rd).tool_calls =
      r1.tool_calls ++ r2.tool_calls ∧
    (supervisor_evaluate_response (Except.error e) [r1, r2] rd).metadata =
      [("evaluated", PyVal.bool false), ("evaluation_failed", PyVal.bool true),
       ("evaluation_error", PyVal.str e), ("routing_decision", optStrVal rd)] ∧
    r1.message.data <:+: (supervisor_evaluate_response (Except.error e) [r1, r2] rd).message.data ∧
    r2.message.data <:+: (supervisor_evaluate_response (Except.error e) [r1, r2] rd).message.data := by
  refine ⟨rfl, rfl, ?_, rfl, ?_, ?_⟩
  · simp [supervisor_evaluate_response, fallback_to_original]
  · refine ⟨("**" ++ r1.agent_name ++ ":** ").data,
      ("\n\n" ++ ("**" ++ r2.agent_name ++ ":** " ++ r2.message)).data, ?_⟩
    simp [supervisor_evaluate_response, fallback_to_original, pyJoin, String.data_append]
  · refine ⟨("**" ++ r1.agent_name ++ ":** " ++ r1.message ++ "\n\n" ++
      ("**" ++ r2.agent_name ++ ":** ")).data, [], ?_⟩
    simp [supervisor_evaluate_response, fallback_to_original, pyJoin, String.data_append]

def partialFailureHeading : String :=
  "I encountered some issues processing your multi-domain query:\n\n"

def itSuccessSection (msg : String) : String :=
  "## 🔧 IT Support Response:\n" ++ msg ++ "\n\n"

def itFailureSection (msg : String) : String :=
  "## ❌ IT Support Issue:\n" ++ msg ++ "\n\n"

def financeSuccessSection (msg : String) : String :=
  "## 💰 Finance Support Response:\n" ++ msg ++ "\n\n"

def financeFailureSection (msg : String) : String :=
  "## ❌ Finance Support Issue:\n" ++ msg ++ "\n\n"

/-- The response-combination logic of `WorkflowOrchestrator._both_specialists`
as a function of the two specialist responses: combined success is the
conjunction, the message is the all-success layout or the partial-failure
layout enumerating each domain's outcome, tool calls are concatenated, and
the metadata records both success flags. -/
def combine_both_responses (it_response finance_response : AgentResponse) : AgentResponse :=
  { success := it_response.success && finance_response.success
    message :=
      if it_response.success && finance_response.success then
        "## 🔧 IT Support Response:\n" ++ it_response.message ++
          "\n\n---\n\n## 💰 Finance Support Response:\n" ++ finance_response.message ++
          "\n\n---\n\n**Note:** This response covers both IT and Finance aspects of your query. If you need more specific help with either domain, please feel free to ask focused questions."
      else
        partialFailureHeading ++
          ((if it_response.success then itSuccessSection it_response.message
            else itFailureSection it_response.message) ++
            (if finance_response.success then financeSuccessSection finance_response.message
             else financeFailureSection finance_response.message))
    agent_name := "IT & Finance Agents"
    routing_decision := none
    tool_calls := it_response.tool_calls ++ finance_response.tool_calls
    metadata := [("domains", PyVal.vlist [PyVal.str ("IT"), PyVal.str ("Finance")]),
      ("it_success", PyVal.bool it_response.success),
      ("finance_success", PyVal.bool finance_response.success),
      ("total_tools_used",
        PyVal.int ((it_response.tool_calls ++ finance_response.tool_calls).length : Int))] }

/-- C4: in the `BothSpecialists` stage the combined success flag is the
conjunction of the two specialist flags, the combined tool calls are the
concatenation, and on any failure the message starts with the
partial-failure heading and contains, for each domain, the labeled section
that identifies whether that domain succeeded or failed (with the domain's
message embedded verbatim). -/
theorem combine_both_responses_spec (itr finr : AgentResponse) :
    (combine_both_responses itr finr).success = (itr.success && finr.success) ∧
    (combine_both_responses itr finr).tool_calls = itr.tool_calls ++ finr.tool_calls ∧
    (¬(itr.success = true ∧ finr.success = true) →
      partialFailureHeading.data <+: (combine_both_responses itr finr).message.data ∧
      (itr.success = true →
        (itSuccessSection itr.message).data <:+: (combine_both_responses itr finr).message.data) ∧
      (itr.success = false →
        (itFailureSection itr.message).data <:+: (combine_both_responses itr finr).message.data) ∧
      (finr.success = true →
        (financeSuccessSection finr.message).data <:+:
          (combine_both_responses itr finr).message.data) ∧
      (finr.success = false →
        (financeFailureSection finr.message).data <:+:
          (combine_both_responses itr finr).message.data)) := by
  refine ⟨rfl, rfl, fun hfail => ?_⟩
  have hand : (itr.success && finr.success) = false := by
    cases h1 : itr.success <;> cases h2 : finr.success <;> simp_all
  have hmsg : (combine_both_responses itr finr).message =
      partialFailureHeading ++
        ((if itr.success then itSuccessSection itr.message else itFailureSection itr.message) ++
          (if finr.success then financeSuccessSection finr.message
           else financeFailureSection finr.message)) := by
    simp [combine_both_responses, hand]
  rw [hmsg]
  refine ⟨?_, ?_, ?_, ?_, ?_⟩
  · rw [String.data_append]
    exact List.prefix_append _ _
  · intro hit
    rw [if_pos hit]
    exact ⟨partialFailureHeading.data,
      (if finr.success then financeSuccessSection finr.message
       else financeFailureSection finr.message).data, by simp [String.data_append]⟩
  · intro hit
    rw [hit, if_neg (by simp)]
    exact ⟨partialFailureHeading.data,
      (if finr.success then financeSuccessSection finr.message
       else financeFailureSection finr.message).data, by simp [String.data_append]⟩
  · intro hfin
    rw [if_pos hfin]
    exact ⟨(partialFailureHeading ++
        (if itr.success then itSuccessSection itr.message else itFailureSection itr.message)).data,
      [], by simp [String.data_append]⟩
  · intro hfin
    rw [hfin, if_neg (show ¬(false = true) by simp)]
    exact ⟨(partialFailureHeading ++
        (if itr.success then itSuccessSection itr.message else itFailureSection itr.message)).data,
      [], by simp [String.data_append]⟩

def itFailureExample : AgentResponse :=
  { success := false, message := "VPN diagnostics unavailable", agent_name := "IT Agent" }

def financeSuccessExample : AgentResponse :=
  { success := true, message := "Expense limit is 500.", agent_name := "Finance Agent" }

/-- Witness for C4 at a concrete failed-IT / successful-Finance pair. -/
theorem combine_both_responses_witness :
    (combine_both_responses itFailureExample financeSuccessExample).success = false ∧
    partialFailureHeading.data <+:
      (combine_both_responses itFailureExample financeSuccessExample).message.data ∧
    (itFailureSection ("VPN diagnostics unavailable")).data <:+:
      (combine_both_responses itFailureExample financeSuccessExample).message.data ∧
    (financeSuccessSection ("Expense limit is 500.")).data <:+:
      (combine_both_responses itFailureExample financeSuccessExample).message.data := by
  have h := combine_both_responses_spec itFailureExample financeSuccessExample
  have hf := h.2.2 (by decide)
  exact ⟨h.1, hf.1, hf.2.2.1 rfl, hf.2.2.2.1 rfl⟩

/-- rag_search.py `DocumentChunk`. -/
structure DocumentChunk where
  text : String
  source : String
  page : Option Int := none
  chunk_id : String
  metadata : PyDict := []
deriving Repr

/-- `RAGDocumentSearch._generate_embeddings`: process the texts in batches
of 10 (the backend request cap), concatenating the per-batch results.
`embed` is the per-text outcome of `_get_batch_embeddings` — the Titan
embedding on success, the 1536-dimensional zero-vector fallback when the
backend call fails. -/
def generate_embeddings {Vec : Type} (embed : String → Vec) (texts : List String) : List Vec :=
  if texts.isEmpty then []
  else (texts.take 10).map embed ++ generate_embeddings embed (texts.drop 10)
termination_by texts.length
decreasing_by
  rename_i hne
  simp only [List.length_drop]
  have hlen : texts.length ≠ 0 := by
    intro h0
    rw [List.length_eq_zero] at h0
    rw [h0] at hne
    simp at hne
  omega

theorem generate_embeddings_eq_map {Vec : Type} (embed : String → Vec) (texts : List String) :
    generate_embeddings embed texts = texts.map embed := by
  have H : ∀ (n : Nat) (ts : List String), ts.length ≤ n →
      generate_embeddings embed ts = ts.map embed := by
    intro n
    induction n with
    | zero =>
      intro ts h
      have h0 : ts = [] := by
        rw [← List.length_eq_zero]
        omega
      subst h0
      rw [generate_embeddings]
      rfl
    | succ n ih =>
      intro ts h
      rw [generate_embeddings]
      by_cases he : ts.isEmpty
      · rw [if_pos he]
        rw [List.isEmpty_iff] at he
        rw [he]
        rfl
      · rw [if_neg he]
        have hne : ts.length ≠ 0 := by
          intro h0
          rw [List.length_eq_zero] at h0
          rw [h0] at he
          simp at he
        rw [ih (ts.drop 10) (by simp only [List.length_drop]; omega)]
        rw [← List.map_append, List.take_append_drop]
  exact H texts.length texts (Nat.le_refl _)

/-- The FAISS `IndexFlatIP` state relevant to the claims: the stored rows in
insertion order. -/
structure VectorStoreModel (Vec : Type) where
  rows : List Vec
deriving Repr

/-- `RAGDocumentSearch._build_vector_store_from_chunks`: embed every chunk's
text (in batches), L2-normalize each row (`faiss.normalize_L2` acts row by
row; `normalize` is that row operation), add the rows to a fresh index, and
assign the new index together with the chunk list to the domain's fields —
returned here as the pair the code stores.  The code reads
`len(embeddings[0])` for the index dimension, so a successful build starts
from a non-empty chunk list. -/
def build_vector_store_from_chunks {Vec : Type} (embed : String → Vec) (normalize : Vec → Vec)
    (chunks : List DocumentChunk) : VectorStoreModel Vec × List DocumentChunk :=
  (⟨(generate_embeddings embed (chunks.map (fun c => c.text))).map normalize⟩, chunks)

/-- C5: after every successful build, the embedding matrix and the stored
chunk list are parallel — the stored chunks are exactly the input chunks,
there is one matrix row per chunk, and row `i` is the normalized embedding
of chunk `i`'s text (stated for every index via `getElem?`).  The store and
chunk list are replaced together as one pair, so the correspondence holds
after every build, and a reload of the persisted pair restores both sides
together. -/
theorem build_vector_store_parallel {Vec : Type} (embed : String → Vec) (normalize : Vec → Vec)
    (chunks : List DocumentChunk) (_hne : chunks ≠ []) :
    (build_vector_store_from_chunks embed normalize chunks).2 = chunks ∧
    (build_vector_store_from_chunks embed normalize chunks).1.rows =
      chunks.map (fun c => normalize (embed c.text)) ∧
    (build_vector_store_from_chunks embed normalize chunks).1.rows.length = chunks.length ∧
    (∀ i : Nat, (build_vector_store_from_chunks embed normalize chunks).1.rows[i]? =
      (chunks[i]?).map (fun c => normalize (embed c.text))) := by
  have hrows : (build_vector_store_from_chunks embed normalize chunks).1.rows =
      chunks.map (fun c => normalize (embed c.text)) := by
    show ((generate_embeddings embed (chunks.map (fun c => c.text))).map normalize) = _
    rw [generate_embeddings_eq_map, List.map_map, List.map_map]
    rfl
  refine ⟨rfl, hrows, by rw [hrows, List.length_map], fun i => ?_⟩
  rw [hrows, List.getElem?_map]

def chunkExampleA : DocumentChunk :=
  { text := "Reset the VPN client first.", source := "it_guide.md", chunk_id := "a1" }

def chunkExampleB : DocumentChunk :=
  { text := "Expense reports are due monthly.", source := "expense_policy.pdf", chunk_id := "b2" }

def embedExample : String → List Int := fun s => [(s.length : Int)]

def normalizeExample : List Int → List Int := fun v => v ++ [0]

/-- Witness for C5 at a concrete two-chunk build over a concrete embedding
oracle. -/
theorem build_vector_store_parallel_witness :
    (build_vector_store_from_chunks embedExample normalizeExample
        [chunkExampleA, chunkExampleB]).2 = [chunkExampleA, chunkExampleB] ∧
    (build_vector_store_from_chunks embedExample normalizeExample
        [chunkExampleA, chunkExampleB]).1.rows =
      [chunkExampleA, chunkExampleB].map (fun c => normalizeExample (embedExample c.text)) :=
  ⟨(build_vector_store_parallel embedExample normalizeExample _ (by simp)).1,
   (build_vector_store_parallel embedExample normalizeExample _ (by simp)).2.1⟩

/-- The source-tagged text assembled per chunk in
`RAGDocumentSearch.get_context_for_query`. -/
def chunk_tagged_text (chunk : DocumentChunk) : String :=
  "[From " ++ chunk.source ++ "]\n" ++ chunk.text ++ "\n"

/-- The accumulation loop of `get_context_for_query`: walk the ranked chunks
and `break` — dropping this chunk and all later ones — at the first chunk
whose measured length would push the running total over the budget.
`measure` models `len(self.tokenizer.encode(...))`. -/
def build_context_parts (measure : String → Nat) (max_context_length : Nat) :
    List DocumentChunk → Nat → List String
  | [], _ => []
  | chunk :: rest, current_length =>
    if max_context_length < current_length + measure (chunk_tagged_text chunk) then []
    else chunk_tagged_text chunk ::
      build_context_parts measure max_context_length rest
        (current_length + measure (chunk_tagged_text chunk))

/-- `RAGDocumentSearch.get_context_for_query`, as a function of the ranked
search results (`search_documents(query, domain, top_k=10)`, an oracle
returning up to 10 chunks in descending similarity order): empty results
give the empty context, otherwise the greedily selected tagged texts joined
by newlines. -/
def get_context_for_query (relevant_chunks : List DocumentChunk)
    (measure : String → Nat) (max_context_length : Nat) : String :=
  if relevant_chunks.isEmpty then ""
  else pyJoin ("\n") (build_context_parts measure max_context_length relevant_chunks 0)

theorem build_context_parts_greedy (measure : String → Nat) (budget : Nat) :
    ∀ (chunks : List DocumentChunk) (acc : Nat), acc ≤ budget →
      ∃ n, n ≤ chunks.length ∧
        build_context_parts measure budget chunks acc =
          (chunks.take n).map chunk_tagged_text ∧
        acc + ((chunks.take n).map (fun c => measure (chunk_tagged_text c))).sum ≤ budget ∧
        (∀ h : n < chunks.length,
          budget < acc + ((chunks.take n).map (fun c => measure (chunk_tagged_text c))).sum
            + measure (chunk_tagged_text (chunks.get ⟨n, h⟩))) := by
  intro chunks
  induction chunks with
  | nil =>
    intro acc hacc
    refine ⟨0, Nat.le_refl _, rfl, by simpa using hacc, fun h => absurd h (by simp)⟩
  | cons c cs ih =>
    intro acc hacc
    by_cases hover : budget < acc + measure (chunk_tagged_text c)
    · refine ⟨0, Nat.zero_le _, ?_, by simpa using hacc, fun h => by simpa using hover⟩
      rw [build_context_parts, if_pos hover]
      rfl
    · have hfit : acc + measure (chunk_tagged_text c) ≤ budget := by omega
      rcases ih (acc + measure (chunk_tagged_text c)) hfit with ⟨n, hn, heq, hsum, hmax⟩
      refine ⟨n + 1, by simpa using hn, ?_, ?_, ?_⟩
      · rw [build_context_parts, if_neg hover, heq]
        rfl
      · rw [List.take_succ_cons, List.map_cons, List.sum_cons]
        omega
      · intro h
        have h2 : n < cs.length := by simpa using h
        have h3 := hmax h2
        rw [List.take_succ_cons, List.map_cons, List.sum_cons]
        have hget : (c :: cs).get ⟨n + 1, h⟩ = cs.get ⟨n, h2⟩ := rfl
        rw [hget]
        omega

/-- C7: context assembly uses a greedy prefix of the ranked candidate list —
there is an `n` with: the returned context is the newline-join of the
source-tagged texts of the first `n` candidates in their given
(descending-similarity) order; the measured lengths of the included parts
sum to at most the budget; if any candidate was left out, including the very
next one would exceed the budget; and since `search` is called with
`top_k=10`, a candidate list of at most 10 yields at most 10 parts. -/
theorem get_context_for_query_greedy (relevant_chunks : List DocumentChunk)
    (measure : String → Nat) (budget : Nat) :
    ∃ n, n ≤ relevant_chunks.length ∧
      get_context_for_query relevant_chunks measure budget =
        (if relevant_chunks.isEmpty then ""
         else pyJoin ("\n") ((relevant_chunks.take n).map chunk_tagged_text)) ∧
      ((relevant_chunks.take n).map (fun c => measure (chunk_tagged_text c))).sum ≤ budget ∧
      (∀ h : n < relevant_chunks.length,
        budget < ((relevant_chunks.take n).map (fun c => measure (chunk_tagged_text c))).sum
          + measure (chunk_tagged_text (relevant_chunks.get ⟨n, h⟩))) ∧
      (relevant_chunks.length ≤ 10 → n ≤ 10) := by
  rcases build_context_parts_greedy measure budget relevant_chunks 0 (Nat.zero_le _)
    with ⟨n, hn, heq, hsum, hmax⟩
  refine ⟨n, hn, ?_, by simpa using hsum, fun h => by simpa using hmax h, fun h10 => by omega⟩
  unfold get_context_for_query
  rw [heq]

/-- Witness for C7 at two concrete candidates, a byte-length measure and a
budget that only fits the first candidate. -/
theorem get_context_for_query_greedy_witness :
    ∃ n, n ≤ ([chunkExampleA, chunkExampleB] : List DocumentChunk).length ∧
      get_context_for_query [chunkExampleA, chunkExampleB] (fun s => s.length) 45 =
        (if ([chunkExampleA, chunkExampleB] : List DocumentChunk).isEmpty then ""
         else pyJoin ("\n")
           (([chunkExampleA, chunkExampleB].take n).map chunk_tagged_text)) ∧
      (([chunkExampleA, chunkExampleB].take n).map
        (fun c => (fun s : String => s.length) (chunk_tagged_text c))).sum ≤ 45 ∧
      (∀ h : n < ([chunkExampleA, chunkExampleB] : List DocumentChunk).length,
        45 < (([chunkExampleA, chunkExampleB].take n).map
            (fun c => (fun s : String => s.length) (chunk_tagged_text c))).sum
          + (fun s : String => s.length)
              (chunk_tagged_text (([chunkExampleA, chunkExampleB] : List DocumentChunk).get ⟨n, h⟩))) ∧
      (([chunkExampleA, chunkExampleB] : List DocumentChunk).length ≤ 10 → n ≤ 10) :=
  get_context_for_query_greedy [chunkExampleA, chunkExampleB] (fun s => s.length) 45

/-- Python `str(x)` for the dynamic values reaching f-strings in the agents.
The claims never depend on the exact rendering of non-string values. -/
def pyValToStr : PyVal → String
  | PyVal.none => "None"
  | PyVal.bool b => if b then "True" else "False"
  | PyVal.str s => s
  | PyVal.int n => toString n
  | PyVal.vlist _ => "[...]"
  | PyVal.dict _ => "\x7b...\x7d"

/-- Python `len(x)` for the sized values the agents measure (`sources`, web
results); unsized values would raise in Python, caught by the agents' outer
handler — the tool contracts keep them lists. -/
def pyValLen : PyVal → Nat
  | PyVal.vlist xs => xs.length
  | PyVal.dict kvs => kvs.length
  | _ => 0

/-- Python truthiness of a dynamic value. -/
def pyValTruthy : PyVal → Bool
  | PyVal.none => false
  | PyVal.bool b => b
  | PyVal.str s => !(s == "")
  | PyVal.int n => !(n == 0)
  | PyVal.vlist xs => !xs.isEmpty
  | PyVal.dict kvs => !kvs.isEmpty

/-- Python `str(x)` of an optional string (`str(None) = "None"`). -/
def pyOptStr : Option String → String
  | some s => s
  | Option.none => "None"

/-- `SupervisorAgent.process_query` (the routing operation): ask the routing
LLM (`Except` oracle standing for `_call_llm`), parse the decision;
`Unclear` yields a failure with the clarification message, the three
concrete domains yield success; an `LLMError` yields the fixed
technical-difficulties failure. -/
def supervisor_process_query (routeLLM : Except String String) (query : String) : AgentResponse :=
  match routeLLM with
  | Except.ok response =>
    if parse_routing_decision response = "Unclear" then
      { success := false
        message := "I can only help with IT or Finance related queries. Please rephrase your question to be more specific about the domain."
        agent_name := "Supervisor"
        routing_decision := some (parse_routing_decision response) }
    else
      { success := true
        message := "Query routed to " ++ parse_routing_decision response ++ " specialist"
        agent_name := "Supervisor"
        routing_decision := some (parse_routing_decision response)
        metadata := [("original_query", PyVal.str query)] }
  | Except.error _ =>
    { success := false
      message := "I'm experiencing technical difficulties with the routing system. Please try again later."
      agent_name := "Supervisor"
      metadata := [("error_type", PyVal.str ("LLM_ERROR")),
        ("error_code", PyVal.str ("LLM_CALL_ERROR"))] }

/-- `x[k]` on a Python dict value (a missing key yields `None` here instead
of raising; the mock web results always carry the three keys). -/
def pyValGet (v : PyVal) (k : String) : PyVal :=
  match v with
  | PyVal.dict kvs => pyDictGet kvs k PyVal.none
  | _ => PyVal.none

def formatWebResultsAux : Nat → List PyVal → String
  | _, [] => ""
  | i, r :: rest =>
    toString i ++ ". " ++ pyValToStr (pyValGet r ("title")) ++ "\n   " ++
      pyValToStr (pyValGet r ("snippet")) ++ "\n   URL: " ++ pyValToStr (pyValGet r ("url")) ++
      "\n\n" ++ formatWebResultsAux (i + 1) rest

/-- `_format_web_results` of the specialist agents: enumerate the result
records as numbered title/snippet/URL lines. -/
def format_web_results (results : PyVal) : String :=
  match results with
  | PyVal.vlist rs => formatWebResultsAux 1 rs
  | _ => ""

/-- The oracle inputs of one specialist `process_query` run: the outcome of
each tool call (`Except.error` carries a raised exception's text) and of the
LLM call. -/
structure AgentEnv where
  ragResult : Except String ToolResult
  webResult : Except String ToolResult
  llmResult : Except String String

/-- `ITAgent.process_query` and `FinanceAgent.process_query`, which differ
only in agent name, domain label and context header: run the RAG tool, then
the web tool — each failure or exception captured as a tool-call record,
never fatal — then the LLM on the assembled context; an LLM failure gives
the fixed failure message with the tool calls gathered so far.  The query
reaches the tools and prompts through the oracles. -/
def specialist_process_query (agent_name : String) (domain_label : String)
    (rag_header : String) (env : AgentEnv) : AgentResponse :=
  let ragPart : PyDict × String :=
    match env.ragResult with
    | Except.ok r =>
      if r.success then
        ([("tool", PyVal.str ("rag_search")), ("success", PyVal.bool true),
          ("result", PyVal.str ("Found " ++
            pyValToStr (pyDictGet r.metadata ("chunks_found") (PyVal.int 0)) ++
            " relevant sections from " ++
            toString (pyValLen (pyDictGet r.metadata ("sources") (PyVal.vlist []))) ++
            " documents")),
          ("sources", pyDictGet r.metadata ("sources") (PyVal.vlist [])),
          ("similarity_scores", pyDictGet r.metadata ("similarity_scores") (PyVal.vlist []))],
         rag_header ++ pyValToStr r.data ++ "\n\n")
      else
        ([("tool", PyVal.str ("rag_search")), ("success", PyVal.bool false),
          ("result", PyVal.str ("RAG search failed: " ++ pyOptStr r.error))], "")
    | Except.error e =>
      ([("tool", PyVal.str ("rag_search")), ("success", PyVal.bool false),
        ("result", PyVal.str ("Tool execution failed: " ++ e))], "")
  let webPart : PyDict × String :=
    match env.webResult with
    | Except.ok r =>
      if r.success then
        ([("tool", PyVal.str ("web_search")), ("success", PyVal.bool true),
          ("result", PyVal.str ("Found " ++ toString (pyValLen r.data) ++
            " relevant web results"))],
         "External Resources:\n" ++ format_web_results r.data ++ "\n\n")
      else
        ([("tool", PyVal.str ("web_search")), ("success", PyVal.bool false),
          ("result", PyVal.str ("Web search failed: " ++ pyOptStr r.error))], "")
    | Except.error e =>
      ([("tool", PyVal.str ("web_search")), ("success", PyVal.bool false),
        ("result", PyVal.str ("Tool execution failed: " ++ e))], "")
  match env.llmResult with
  | Except.ok response =>
    { success := true
      message := response
      agent_name := agent_name
      tool_calls := [ragPart.1, webPart.1]
      metadata := [("domain", PyVal.str domain_label),
        ("tools_used", PyVal.int (([ragPart.1, webPart.1] : List PyDict).length : Int)),
        ("successful_tools", PyVal.int ((([ragPart.1, webPart.1] : List PyDict).filter
          (fun call => pyValTruthy (pyDictGet call ("success") (PyVal.bool false)))).length : Int)),
        ("context_length", PyVal.int ((ragPart.2 ++ webPart.2).length : Int))] }
  | Except.error _ =>
    { success := false
      message := "I'm experiencing technical difficulties with generating the response. Please try again later."
      agent_name := agent_name
      tool_calls := [ragPart.1, webPart.1]
      metadata := [("error_type", PyVal.str ("LLM_ERROR")),
        ("error_code", PyVal.str ("LLM_CALL_ERROR"))] }

/-- state.py `SystemState`. -/
structure SystemState where
  query : String
  validation_result : Option ValidationResult := none
  supervisor_response : Option AgentResponse := none
  specialist_response : Option AgentResponse := none
  individual_responses : Option (List AgentResponse) := none
  final_response : String := ""
  error : Option String := none
  metadata : PyDict := []
deriving Repr

/-- The oracle inputs of one full workflow run. -/
structure WorkflowEnv where
  routeLLM : Except String String
  itEnv : AgentEnv
  financeEnv : AgentEnv
  evalLLM : Except String String

/-- `WorkflowOrchestrator._validate_input`: validate, store the result; on
success replace the working query with the sanitized text, on failure set
the error field. -/
def validate_input_node (cfg : ValidationConfig) (state : SystemState) : SystemState :=
  if (validate_query cfg state.query).is_valid then
    { state with
      validation_result := some (validate_query cfg state.query),
      query := (validate_query cfg state.query).sanitized_input.getD state.query }
  else
    { state with
      validation_result := some (validate_query cfg state.query),
      error := (validate_query cfg state.query).error_message }

/-- `WorkflowOrchestrator._supervisor_route`: store the supervisor response;
a failure copies its message into the error field. -/
def supervisor_route_node (env : WorkflowEnv) (state : SystemState) : SystemState :=
  if (supervisor_process_query env.routeLLM state.query).success then
    { state with supervisor_response := some (supervisor_process_query env.routeLLM state.query) }
  else
    { state with
      supervisor_response := some (supervisor_process_query env.routeLLM state.query),
      error := some (supervisor_process_query env.routeLLM state.query).message }

def itAgentResponse (env : WorkflowEnv) : AgentResponse :=
  specialist_process_query ("IT Agent") ("IT") ("Internal IT Documentation:\n") env.itEnv

def financeAgentResponse (env : WorkflowEnv) : AgentResponse :=
  specialist_process_query ("Finance Agent") ("Finance") ("Internal Finance Documents:\n")
    env.financeEnv

/-- `WorkflowOrchestrator._it_specialist`. -/
def it_specialist_node (env : WorkflowEnv) (state : SystemState) : SystemState :=
  if (itAgentResponse env).success then
    { state with specialist_response := some (itAgentResponse env) }
  else
    { state with
      specialist_response := some (itAgentResponse env),
      error := some (itAgentResponse env).message }

/-- `WorkflowOrchestrator._finance_specialist`. -/
def finance_specialist_node (env : WorkflowEnv) (state : SystemState) : SystemState :=
  if (financeAgentResponse env).success then
    { state with specialist_response := some (financeAgentResponse env) }
  else
    { state with
      specialist_response := some (financeAgentResponse env),
      error := some (financeAgentResponse env).message }

/-- `WorkflowOrchestrator._both_specialists`: run both agents, record the
individual responses and the combined response; a partial failure sets the
error field. -/
def both_specialists_node (env : WorkflowEnv) (state : SystemState) : SystemState :=
  if (combine_both_responses (itAgentResponse env) (financeAgentResponse env)).success then
    { state with
      individual_responses := some [itAgentResponse env, financeAgentResponse env]
      specialist_response :=
        some (combine_both_responses (itAgentResponse env) (financeAgentResponse env)) }
  else
    { state with
      individual_responses := some [itAgentResponse env, financeAgentResponse env]
      specialist_response :=
        some (combine_both_responses (itAgentResponse env) (financeAgentResponse env))
      error := some ("Partial success in multi-domain processing") }

/-- The failed-specialist branch of `WorkflowOrchestrator._format_response`:
raw specialist message (or the placeholder) as the final response, a
processing path ending in the error handler, and metadata with the stored
error. -/
def format_failed_response (state : SystemState) (msg : String) : SystemState :=
  let processing_path : List String :=
    ["Supervisor Agent (Routing)"] ++
      (match state.supervisor_response with
       | some sr =>
         if sr.routing_decision = some ("Finance") then ["Finance Agent"]
         else if sr.routing_decision = some ("IT") then ["IT Agent"]
         else if sr.routing_decision = some ("Both") then ["IT Agent", "Finance Agent"]
         else []
       | Option.none => []) ++ ["Error Handler"]
  { state with
    final_response := msg
    metadata := [("processing_path", PyVal.vlist (processing_path.map PyVal.str)),
      ("routing_decision", PyVal.str ("Unknown")),
      ("specialist_agents", PyVal.vlist []),
      ("tools_used", PyVal.int 0),
      ("evaluated", PyVal.bool false),
      ("evaluation_success", PyVal.bool false),
      ("total_processing_steps", PyVal.int (processing_path.length : Int)),
      ("error", optStrVal state.error)] }

/-- `WorkflowOrchestrator._format_response`: on specialist success, have the
supervisor evaluate the individual responses (the recorded pair for `Both`,
else the single specialist response) and install the evaluated message plus
the processing-path metadata; otherwise fall to the failed branch. -/
def format_response_node (env : WorkflowEnv) (state : SystemState) : SystemState :=
  match state.specialist_response with
  | some sp =>
    if sp.success then
      let routing_decision : Option String :=
        match state.supervisor_response with
        | some sr => sr.routing_decision
        | Option.none => some ("Unknown")
      let specialist_responses : List AgentResponse :=
        match state.individual_responses with
        | some (r :: rs) => r :: rs
        | _ => [sp]
      let evaluated := supervisor_evaluate_response env.evalLLM specialist_responses
        routing_decision
      let processing_path : List String :=
        ["Supervisor Agent (Routing)"] ++
          (if routing_decision = some ("Finance") then ["Finance Agent"]
           else if routing_decision = some ("IT") then ["IT Agent"]
           else if routing_decision = some ("Both") then ["IT Agent", "Finance Agent"]
           else []) ++ ["Supervisor Agent (Evaluation)"]
      { state with
        final_response := evaluated.message
        metadata := [("processing_path", PyVal.vlist (processing_path.map PyVal.str)),
          ("routing_decision", optStrVal routing_decision),
          ("specialist_agents", pyDictGet evaluated.metadata ("original_specialists")
            (PyVal.vlist [])),
          ("tools_used", PyVal.int (evaluated.tool_calls.length : Int)),
          ("evaluated", pyDictGet evaluated.metadata ("evaluated") (PyVal.bool false)),
          ("evaluation_success", pyDictGet evaluated.metadata ("evaluation_success")
            (PyVal.bool false)),
          ("total_processing_steps", PyVal.int (processing_path.length : Int))] }
    else format_failed_response state sp.message
  | Option.none => format_failed_response state ("No response generated")

/-- `WorkflowOrchestrator._handle_error`: one user-facing apology built from
the stored error (or the generic fallback for a falsy one) and the error
metadata record. -/
def handle_error_node (state : SystemState) : SystemState :=
  let error_message :=
    match state.error with
    | some s => if s == "" then "An unexpected error occurred" else s
    | Option.none => "An unexpected error occurred"
  { state with
    final_response := "I apologize, but I encountered an issue: " ++ error_message ++
      ". Please try again or contact support if the problem persists."
    metadata := [("agent_used", PyVal.str ("Error Handler")),
      ("tools_used", PyVal.int 0),
      ("routing_decision", PyVal.str ("Error")),
      ("evaluated", PyVal.bool false),
      ("evaluation_success", PyVal.bool false),
      ("error", PyVal.str error_message)] }

/-- `WorkflowOrchestrator._validation_router`. -/
def validation_router (state : SystemState) : String :=
  match state.validation_result with
  | some vr => if vr.is_valid then "valid" else "invalid"
  | Option.none => "invalid"

/-- `WorkflowOrchestrator._supervisor_router`. -/
def supervisor_router (state : SystemState) : String :=
  match state.supervisor_response with
  | some sr =>
    if sr.success then
      (match sr.routing_decision with
       | some d => if d = "IT" ∨ d = "Finance" ∨ d = "Both" then d else "error"
       | Option.none => "error")
    else "error"
  | Option.none => "error"

/-- The compiled LangGraph workflow of `_build_workflow`, run on one query:
START → validate_input → (router) supervisor_route → one specialist node
chosen by the supervisor router → format_response → END, with
handle_error → END from invalid input and from routing failure. -/
def run_workflow (cfg : ValidationConfig) (env : WorkflowEnv) (query : String) : SystemState :=
  let s1 := validate_input_node cfg { query := query }
  if validation_router s1 = "valid" then
    let s2 := supervisor_route_node env s1
    if supervisor_router s2 = "IT" then format_response_node env (it_specialist_node env s2)
    else if supervisor_router s2 = "Finance" then
      format_response_node env (finance_specialist_node env s2)
    else if supervisor_router s2 = "Both" then
      format_response_node env (both_specialists_node env s2)
    else handle_error_node s2
  else handle_error_node s1

/-- The record returned by `WorkflowOrchestrator.process_query`. -/
structure ProcessResult where
  query : String
  response : String
  metadata : PyDict
  success : Bool
  error : Option String
deriving Repr

/-- Python truthiness of the optional error string: `None` and `""` are
falsy. -/
def pyTruthyOptStr : Option String → Bool
  | some s => !(s == "")
  | Option.none => false

/-- `WorkflowOrchestrator.process_query`: build the initial state, run the
workflow — a total function here, as every node converts its own failures
into the `error` field — and package the final state's fields;
`success = not bool(error)`. -/
def process_query (cfg : ValidationConfig) (env : WorkflowEnv) (query : String) : ProcessResult :=
  { query := query
    response := (run_workflow cfg env query).final_response
    metadata := (run_workflow cfg env query).metadata
    success := !pyTruthyOptStr (run_workflow cfg env query).error
    error := (run_workflow cfg env query).error }

theorem string_append_ne_empty_left (a b : String) (ha : a ≠ "") : a ++ b ≠ "" := by
  intro h
  apply ha
  have hd := congrArg String.data h
  rw [String.data_append] at hd
  have h2 : a.data = [] := (List.append_eq_nil.mp hd).1
  cases a with
  | mk d =>
    have h3 : d = [] := h2
    rw [h3]

theorem msgTooShort_ne_empty (n : Nat) : msgTooShort n ≠ "" :=
  string_append_ne_empty_left _ _ (string_append_ne_empty_left _ _ (by decide))

theorem msgTooLong_ne_empty (n : Nat) : msgTooLong n ≠ "" :=
  string_append_ne_empty_left _ _ (string_append_ne_empty_left _ _ (by decide))

theorem validate_query_cases (cfg : ValidationConfig) (q : String) :
    (validate_query cfg q).is_valid = true ∨
    ∃ s, (validate_query cfg q).error_message = some s ∧ s ≠ "" := by
  unfold validate_query
  split_ifs
  · exact Or.inr ⟨msgEmpty, rfl, by decide⟩
  · exact Or.inr ⟨msgTooShort cfg.min_query_length, rfl, msgTooShort_ne_empty _⟩
  · exact Or.inr ⟨msgTooLong cfg.max_query_length, rfl, msgTooLong_ne_empty _⟩
  · exact Or.inr ⟨msgInvalidChars, rfl, by decide⟩
  · exact Or.inr ⟨msgHarmful, rfl, by decide⟩
  · exact Or.inl rfl

theorem validate_query_error_nonempty (cfg : ValidationConfig) (q : String)
    (h : (validate_query cfg q).is_valid = false) :
    ∃ s, (validate_query cfg q).error_message = some s ∧ s ≠ "" := by
  rcases validate_query_cases cfg q with hv | he
  · rw [hv] at h
    exact absurd h (by decide)
  · exact he

theorem supervisor_fail_message_nonempty (routeLLM : Except String String) (q : String)
    (h : (supervisor_process_query routeLLM q).success = false) :
    (supervisor_process_query routeLLM q).message ≠ "" := by
  cases routeLLM with
  | ok r =>
    by_cases hp : parse_routing_decision r = "Unclear"
    · have hm : (supervisor_process_query (Except.ok r) q).message =
          "I can only help with IT or Finance related queries. Please rephrase your question to be more specific about the domain." := by
        simp [supervisor_process_query, hp]
      rw [hm]
      decide
    · have hs : (supervisor_process_query (Except.ok r) q).success = true := by
        simp [supervisor_process_query, hp]
      rw [hs] at h
      exact absurd h (by decide)
  | error e =>
    have hm : (supervisor_process_query (Except.error e) q).message =
        "I'm experiencing technical difficulties with the routing system. Please try again later." := by
      simp [supervisor_process_query]
    rw [hm]
    decide

theorem specialist_fail_message_nonempty (n d hd : String) (env : AgentEnv)
    (h : (specialist_process_query n d hd env).success = false) :
    (specialist_process_query n d hd env).message ≠ "" := by
  cases henv : env.llmResult with
  | ok r =>
    have hs : (specialist_process_query n d hd env).success = true := by
      simp [specialist_process_query, henv]
    rw [hs] at h
    exact absurd h (by decide)
  | error e =>
    have hm : (specialist_process_query n d hd env).message =
        "I'm experiencing technical difficulties with generating the response. Please try again later." := by
      simp [specialist_process_query, henv]
    rw [hm]
    decide

/-- The invariant carried through the workflow: the error field is either
unset or a non-empty string (no node ever stores an empty error message). -/
def errorFieldOk (st : SystemState) : Prop :=
  st.error = none ∨ ∃ s, st.error = some s ∧ s ≠ ""

theorem validate_input_node_errorOk (cfg : ValidationConfig) (st : SystemState)
    (h : errorFieldOk st) : errorFieldOk (validate_input_node cfg st) := by
  unfold validate_input_node
  by_cases hv : (validate_query cfg st.query).is_valid
  · simpa [hv, errorFieldOk] using h
  · rw [if_neg hv]
    rcases validate_query_error_nonempty cfg st.query (by simpa using hv) with ⟨s, hs, hne⟩
    exact Or.inr ⟨s, by simpa using hs, hne⟩

theorem supervisor_route_node_errorOk (env : WorkflowEnv) (st : SystemState)
    (h : errorFieldOk st) : errorFieldOk (supervisor_route_node env st) := by
  unfold supervisor_route_node
  by_cases hs : (supervisor_process_query env.routeLLM st.query).success
  · simpa [hs, errorFieldOk] using h
  · rw [if_neg hs]
    exact Or.inr ⟨_, rfl, supervisor_fail_message_nonempty _ _ (by simpa using hs)⟩

theorem it_specialist_node_errorOk (env : WorkflowEnv) (st : SystemState)
    (h : errorFieldOk st) : errorFieldOk (it_specialist_node env st) := by
  unfold it_specialist_node
  by_cases hs : (itAgentResponse env).success
  · simpa [hs, errorFieldOk] using h
  · rw [if_neg hs]
    exact Or.inr ⟨_, rfl, specialist_fail_message_nonempty _ _ _ _ (by simpa using hs)⟩

theorem finance_specialist_node_errorOk (env : WorkflowEnv) (st : SystemState)
    (h : errorFieldOk st) : errorFieldOk (finance_specialist_node env st) := by
  unfold finance_specialist_node
  by_cases hs : (financeAgentResponse env).success
  · simpa [hs, errorFieldOk] using h
  · rw [if_neg hs]
    exact Or.inr ⟨_, rfl, specialist_fail_message_nonempty _ _ _ _ (by simpa using hs)⟩

theorem both_specialists_node_errorOk (env : WorkflowEnv) (st : SystemState)
    (h : errorFieldOk st) : errorFieldOk (both_specialists_node env st) := by
  unfold both_specialists_node
  by_cases hs : (combine_both_responses (itAgentResponse env) (financeAgentResponse env)).success
  · simpa [hs, errorFieldOk] using h
  · rw [if_neg hs]
    exact Or.inr ⟨_, rfl, by decide⟩

theorem format_response_node_error (env : WorkflowEnv) (st : SystemState) :
    (format_response_node env st).error = st.error := by
  unfold format_response_node format_failed_response
  rcases hsp : st.specialist_response with _ | sp
  · rfl
  · dsimp only
    by_cases h : sp.success
    · rw [if_pos h]
    · rw [if_neg h]

theorem handle_error_node_error (st : SystemState) :
    (handle_error_node st).error = st.error := rfl

theorem format_response_node_errorOk (env : WorkflowEnv) (st : SystemState)
    (h : errorFieldOk st) : errorFieldOk (format_response_node env st) := by
  unfold errorFieldOk
  rw [format_response_node_error]
  exact h

theorem handle_error_node_errorOk (st : SystemState) (h : errorFieldOk st) :
    errorFieldOk (handle_error_node st) := by
  unfold errorFieldOk
  rw [handle_error_node_error]
  exact h

theorem run_workflow_error_ok (cfg : ValidationConfig) (env : WorkflowEnv) (q : String) :
    errorFieldOk (run_workflow cfg env q) := by
  unfold run_workflow
  dsimp only
  have h1 : errorFieldOk (validate_input_node cfg { query := q }) :=
    validate_input_node_errorOk cfg _ (Or.inl rfl)
  have h2 : errorFieldOk (supervisor_route_node env (validate_input_node cfg { query := q })) :=
    supervisor_route_node_errorOk env _ h1
  split_ifs
  · exact format_response_node_errorOk env _ (it_specialist_node_errorOk env _ h2)
  · exact format_response_node_errorOk env _ (finance_specialist_node_errorOk env _ h2)
  · exact format_response_node_errorOk env _ (both_specialists_node_errorOk env _ h2)
  · exact handle_error_node_errorOk _ h2
  · exact handle_error_node_errorOk _ h1

/-- C1: `process_query` is a total function of the workflow oracles — every
node catches its own failures and lowers them into the state's `error`
field, so no exception reaches the caller and the returned record always
carries the query, response, metadata, success and error fields, taken from
the final workflow state — and its `success` field is true exactly when no
error was set in the final workflow state. -/
theorem process_query_success_iff (cfg : ValidationConfig) (env : WorkflowEnv) (q : String) :
    (process_query cfg env q).query = q ∧
    (process_query cfg env q).response = (run_workflow cfg env q).final_response ∧
    (process_query cfg env q).metadata = (run_workflow cfg env q).metadata ∧
    (process_query cfg env q).error = (run_workflow cfg env q).error ∧
    ((process_query cfg env q).success = true ↔ (run_workflow cfg env q).error = none) := by
  refine ⟨rfl, rfl, rfl, rfl, ?_⟩
  rcases run_workflow_error_ok cfg env q with h | ⟨s, hs, hne⟩
  · simp [process_query, pyTruthyOptStr, h]
  · simp [process_query, pyTruthyOptStr, hs, hne]
